import Mathlib

/-!
# Verification of the d'sis Catering backend

Shallow embedding of the two backend variants of the catering application:

* `Catering.SimpleSrv` — the JSON-file backed server (`backend/server.js`),
  which keeps each entity collection as an array in a JSON file and has no
  authentication layer on most routes.
* `Catering.RelSrv` — the relational variant (`backend/routes/*.js` plus the
  unnamed route files), which issues SQL statements against tables
  `users`, `menu_items`, `bookings`, `booking_items`, `receipts` and
  authenticates callers via a signed token.

Modelling conventions:

* JS numbers that hold money are modelled as `ℚ` (the catalog prices are
  decimal literals and all arithmetic on them in the code is `+` and `*`).
* Quantities, ids and guest counts are `Nat`.
* Display codes (`BK-…`, `RCP-…` strings built from `Date.now()` plus a
  random suffix) and `createdAt`/`updatedAt` timestamps are elided: entities
  are tracked by their numeric ids; where a route's behaviour depends on the
  clock the current time is an explicit `now : Nat` argument.
* File writes (`writeData`) and SQL statements are modelled as pure state
  updates; where a claim is about behaviour under storage failure, the
  success of each statement is an explicit boolean argument (the code's own
  `if (err)` branches are the failure paths being modelled).
* `express-validator` string-format checks (`isISO8601`, `isEmail`,
  `isMobilePhone`, `escape`) are not reimplemented; where a route uses them
  the validator's verdict enters the model as an explicit boolean argument
  (`valOk`), and the checks that the claims depend on (`isArray({min:1})`,
  `isInt({min:1})`, `notEmpty`) are modelled exactly.
-/

namespace Catering

/-- One requested menu line, `{ itemId, quantity }`, as sent by the client
in the `menuItems` array of a booking request. -/
structure LineReq where
  itemId : Nat
  quantity : Nat
  deriving Repr, DecidableEq

/-- A catalog entry: a row of `menu.json` (simple server) or of the
`menu_items` table (relational variant).  `description`/`imageUrl` carry no
behaviour and are elided. -/
structure MenuItem where
  id : Nat
  itemName : String
  category : String
  pricePerServing : ℚ
  isAvailable : Bool
  deriving Repr, DecidableEq

/-- Removes one key from an object represented as a key/value list.  This is
the model of the JS rest-destructuring idiom
`const { password: _, ...userWithoutPassword } = user` used by both backends
to strip the credential before responding. -/
def removeKey (fields : List (String × String)) (k : String) :
    List (String × String) :=
  fields.filter fun kv => kv.1 != k

/-- Outcome of a registration request, shared by both backends.
`created` carries the user object sent back in the response body. -/
inductive RegisterResult where
  | created (userObj : List (String × String))
  | badRequest
  | conflict
  | serverError
  deriving Repr, DecidableEq

/-- HTTP status of a registration outcome. -/
def RegisterResult.status : RegisterResult → Nat
  | .created _ => 201
  | .badRequest => 400
  | .conflict => 409
  | .serverError => 500

/-! ## The JSON-file backed server (`backend/server.js`) -/

namespace SimpleSrv

/-- A user record as stored in `users.json`.  Registration stores the
plaintext password under the key `password` (this server does not hash). -/
structure User where
  id : Nat
  username : String
  email : String
  password : String
  firstName : String
  lastName : String
  phoneNumber : String
  userType : String
  deriving Repr, DecidableEq

/-- The key/value representation of a stored user object; the key list
mirrors the object literal built by `POST /api/auth/register`. -/
def userFields (u : User) : List (String × String) :=
  [("id", toString u.id), ("username", u.username), ("email", u.email),
   ("password", u.password), ("firstName", u.firstName),
   ("lastName", u.lastName), ("phoneNumber", u.phoneNumber),
   ("userType", u.userType)]

/-- A snapshotted booking line as embedded in a booking object:
`{ itemId, itemName, quantity, unitPrice, totalPrice }`. -/
structure BookingItem where
  itemId : Nat
  itemName : String
  quantity : Nat
  unitPrice : ℚ
  totalPrice : ℚ
  deriving Repr, DecidableEq

/-- A booking object as stored in `bookings.json` (lines embedded). -/
structure Booking where
  id : Nat
  customerName : String
  customerEmail : String
  customerPhone : String
  eventType : String
  eventDate : String
  eventVenue : String
  numGuests : Nat
  specialInstructions : String
  bookingStatus : String
  totalAmount : ℚ
  items : List BookingItem
  deriving Repr, DecidableEq

/-- A receipt object as stored in `receipts.json`.  `receiptNumber` is the
numeric value of the padded display string `R000042`; the denormalized
customer/event fields copied from the booking carry no behaviour and are
elided. -/
structure Receipt where
  id : Nat
  receiptNumber : Nat
  bookingRef : Nat
  subtotal : ℚ
  taxRate : ℚ
  taxAmount : ℚ
  totalAmount : ℚ
  paymentMethod : String
  paymentStatus : String
  deriving Repr, DecidableEq

/-- The whole JSON-file store of the simple server. -/
structure St where
  menu : List MenuItem
  bookings : List Booking
  receipts : List Receipt
  deriving Repr, DecidableEq

/-- The body of `POST /api/bookings`.  `menuItems := none` models a request
in which the field is absent (JS `undefined`); `some []` is a present but
empty array, which is truthy in JS. -/
structure BookingReq where
  eventType : String
  eventDate : String
  eventVenue : String
  numGuests : Nat
  specialInstructions : String
  customerName : String
  customerEmail : String
  customerPhone : String
  menuItems : Option (List LineReq)
  deriving Repr, DecidableEq

/-- The truthiness test
`!eventType || !eventDate || !eventVenue || !numGuests || !menuItems ||
!customerName || !customerEmail` guarding the route (empty strings and the
number `0` are falsy; any array, also `[]`, is truthy). -/
def requiredPresent (r : BookingReq) : Bool :=
  !r.eventType.isEmpty && !r.eventDate.isEmpty && !r.eventVenue.isEmpty &&
  r.numGuests != 0 && r.menuItems.isSome && !r.customerName.isEmpty &&
  !r.customerEmail.isEmpty

/-- Predicate used by the date-exclusivity check: an existing booking blocks
a date iff it is on that date and not cancelled. -/
def nonCancelledOn (d : String) (b : Booking) : Bool :=
  b.eventDate == d && b.bookingStatus != "cancelled"

/-- `bookings.some(b => b.eventDate === eventDate && b.bookingStatus !== 'cancelled')`. -/
def dateAlreadyBooked (bookings : List Booking) (eventDate : String) : Bool :=
  bookings.any (nonCancelledOn eventDate)

/-- One step of the `menuItems.map(...)` body: look the item up by id in the
catalog (note: no availability check in this server) and snapshot its
current price.  A missing item makes `menuData.find` return `undefined` and
the subsequent `menuItem.pricePerServing` throw, modelled as `none`. -/
def mkBookingItem (menu : List MenuItem) (l : LineReq) : Option BookingItem :=
  (menu.find? fun m => m.id == l.itemId).map fun m =>
    { itemId := l.itemId, itemName := m.itemName, quantity := l.quantity,
      unitPrice := m.pricePerServing,
      totalPrice := m.pricePerServing * (l.quantity : ℚ) }

/-- The whole `menuItems.map(...)`; the first missing item aborts the map
with a `TypeError` (modelled as `none`). -/
def mkItems (menu : List MenuItem) : List LineReq → Option (List BookingItem)
  | [] => some []
  | l :: ls =>
    match mkBookingItem menu l with
    | none => none
    | some it => (mkItems menu ls).map fun rest => it :: rest

/-- `totalAmount` is accumulated during the map; it equals the sum of the
line totals. -/
def itemsTotal (items : List BookingItem) : ℚ :=
  (items.map (·.totalPrice)).sum

/-- Outcome of `POST /api/bookings` on the simple server.  `typeError` is
the uncaught `TypeError` raised on an unknown `itemId`, which Express turns
into a 500 response. -/
inductive CreateResult where
  | created (b : Booking)
  | badRequest
  | conflict
  | typeError
  deriving Repr, DecidableEq

/-- HTTP status of a booking-creation outcome. -/
def CreateResult.status : CreateResult → Nat
  | .created _ => 201
  | .badRequest => 400
  | .conflict => 409
  | .typeError => 500

/-- `POST /api/bookings` of the simple server: required-field truthiness
check, then the date-exclusivity check, then per-line price snapshotting,
then a single push of the booking object (with its lines embedded) onto
`bookings.json`.  The new id is `bookings.length + 1`. -/
def createBooking (s : St) (r : BookingReq) : CreateResult × St :=
  if !requiredPresent r then (.badRequest, s)
  else if dateAlreadyBooked s.bookings r.eventDate then (.conflict, s)
  else
    match r.menuItems with
    | none => (.badRequest, s) -- unreachable: `requiredPresent` forces presence
    | some lines =>
      match mkItems s.menu lines with
      | none => (.typeError, s)
      | some items =>
        let b : Booking :=
          { id := s.bookings.length + 1, customerName := r.customerName,
            customerEmail := r.customerEmail, customerPhone := r.customerPhone,
            eventType := r.eventType, eventDate := r.eventDate,
            eventVenue := r.eventVenue, numGuests := r.numGuests,
            specialInstructions := r.specialInstructions,
            bookingStatus := "pending", totalAmount := itemsTotal items,
            items := items }
        (.created b, { s with bookings := s.bookings ++ [b] })

/-- `GET /api/bookings/:id` of the simple server.  The route has no
authentication middleware and no ownership filter: it returns the booking
found by id to whoever asks, and 404 (`none`) otherwise. -/
def getBooking (s : St) (bid : Nat) : Option Booking :=
  s.bookings.find? fun b => b.id == bid

/-- `POST /api/receipts/generate` of the simple server: look the booking up
by numeric id, compute `subtotal`, 12% tax and grand total, allocate
`id = receipts.length + 1` and the display number `R` + padded
`receipts.length + 1` (its numeric value is recorded), and append the
receipt.  `none` models the 404 on an unknown booking. -/
def generateReceipt (s : St) (bid : Nat)
    (paymentMethod : String := "Cash") (paymentStatus : String := "pending") :
    Option Receipt × St :=
  match s.bookings.find? (fun b => b.id == bid) with
  | none => (none, s)
  | some booking =>
    let subtotal := booking.totalAmount
    let taxRate : ℚ := 12 / 100
    let taxAmount := subtotal * taxRate
    let totalAmount := subtotal + taxAmount
    let rcp : Receipt :=
      { id := s.receipts.length + 1, receiptNumber := s.receipts.length + 1,
        bookingRef := bid, subtotal := subtotal, taxRate := taxRate,
        taxAmount := taxAmount, totalAmount := totalAmount,
        paymentMethod := paymentMethod, paymentStatus := paymentStatus }
    (some rcp, { s with receipts := s.receipts ++ [rcp] })

/-- The receipts store is sequentially numbered `1, 2, …, n` in order.  This
holds for every store grown from the empty one by `generateReceipt`. -/
def seqNumbered (rs : List Receipt) : Prop :=
  rs.map (·.receiptNumber) = List.range' 1 rs.length

/-- Body of `POST /api/auth/register` on the simple server. -/
structure RegisterReq where
  firstName : String
  lastName : String
  email : String
  mobileNumber : String
  password : String
  repeatPassword : String
  deriving Repr, DecidableEq

/-- The three early 400 returns of the register route: all required fields
truthy, passwords equal, password at least 6 characters. -/
def prechecksOk (r : RegisterReq) : Bool :=
  !r.firstName.isEmpty && !r.lastName.isEmpty && !r.email.isEmpty &&
  !r.password.isEmpty && !r.repeatPassword.isEmpty &&
  r.password == r.repeatPassword && decide (6 ≤ r.password.length)

/-- `POST /api/auth/register` on the simple server: input prechecks, then a
duplicate-email lookup (`users.find(u => u.email === email)`) answered with
409, otherwise push the new user (id `users.length + 1`, username the part
of the email before `@`, role `customer`) and respond with the user object
stripped of its `password` key. -/
def register (users : List User) (r : RegisterReq) :
    RegisterResult × List User :=
  if !prechecksOk r then (.badRequest, users)
  else if users.any (fun u => u.email == r.email) then (.conflict, users)
  else
    let newUser : User :=
      { id := users.length + 1, username := (r.email.splitOn "@").headD "",
        email := r.email, password := r.password, firstName := r.firstName,
        lastName := r.lastName, phoneNumber := r.mobileNumber,
        userType := "customer" }
    (.created (removeKey (userFields newUser) "password"), users ++ [newUser])

/-- `POST /api/auth/login` on the simple server: find a user whose email and
plaintext password both match and answer with the user object stripped of
its `password` key; `none` covers the 400 (missing field) and 401 (no match)
responses, which carry no user object. -/
def login (users : List User) (email password : String) :
    Option (List (String × String)) :=
  if email.isEmpty || password.isEmpty then none
  else
    (users.find? fun u => u.email == email && u.password == password).map
      fun u => removeKey (userFields u) "password"

end SimpleSrv

/-! ## The relational variant (`backend/routes/*.js` and the unnamed route
files: auth, menu + receipts, messages) -/

namespace RelSrv

/-- The authenticated caller recovered from the bearer token
(`req.user.id`, `req.user.userType`). -/
structure Caller where
  id : Nat
  userType : String
  deriving Repr, DecidableEq

/-- A row of the `users` table.  The stored credential is a bcrypt hash in
column `password_hash`. -/
structure User where
  id : Nat
  username : String
  email : String
  passwordHash : String
  firstName : String
  lastName : String
  phoneNumber : String
  userType : String
  isActive : Bool
  deriving Repr, DecidableEq

/-- The key/value representation of a `SELECT * FROM users` row, column
names as in the table. -/
def userFields (u : User) : List (String × String) :=
  [("id", toString u.id), ("username", u.username), ("email", u.email),
   ("password_hash", u.passwordHash), ("first_name", u.firstName),
   ("last_name", u.lastName), ("phone_number", u.phoneNumber),
   ("user_type", u.userType), ("is_active", toString u.isActive)]

/-- A row of the `bookings` table. -/
structure Booking where
  id : Nat
  userId : Nat
  eventType : String
  eventDate : String
  eventVenue : String
  numGuests : Nat
  specialInstructions : String
  bookingStatus : String
  totalAmount : ℚ
  deriving Repr, DecidableEq

/-- A validated line of a booking request after price snapshotting
(the `validItems` array of the create-booking route). -/
structure ValidItem where
  itemId : Nat
  quantity : Nat
  unitPrice : ℚ
  totalPrice : ℚ
  deriving Repr, DecidableEq

/-- A row of the `booking_items` table. -/
structure BookingItem where
  bookingId : Nat
  itemId : Nat
  quantity : Nat
  unitPrice : ℚ
  totalPrice : ℚ
  deriving Repr, DecidableEq

/-- An SQLite value as bound into a row: SQLite is dynamically typed, so a
column can hold a number, a string, or NULL (the value of a parameter the
statement never bound). -/
inductive SqlVal where
  | num (q : ℚ)
  | str (s : String)
  | null
  deriving Repr, DecidableEq

/-- The column list of the `INSERT INTO receipts` statement of the receipts
route, exactly as written there. -/
def receiptColumns : List String :=
  ["receipt_id", "booking_id", "receipt_number", "subtotal", "tax_rate",
   "tax_amount", "total_amount", "payment_method", "payment_status",
   "issued_date"]

/-- Positional parameter binding as node-sqlite3 performs it: the supplied
values are bound in order and any parameter without a value stays NULL. -/
def bindParams (cols : List String) (vals : List SqlVal) :
    List (String × SqlVal) :=
  cols.zip (vals ++ List.replicate (cols.length - vals.length) .null)

/-- Reads one column of a bound row. -/
def lookupCol (row : List (String × SqlVal)) (c : String) : Option SqlVal :=
  (row.find? fun kv => kv.1 == c).map (·.2)

/-- The relational store (the tables the claims touch).  Receipt rows are
kept as bound parameter lists because the receipts INSERT binds fewer
values than it names columns. -/
structure St where
  menuItems : List MenuItem
  bookings : List Booking
  bookingItems : List BookingItem
  receipts : List (List (String × SqlVal))
  deriving Repr, DecidableEq

/-- Body of `POST /api/bookings` in the relational variant (the owner comes
from the token, not the body). -/
structure BookingReq where
  userId : Nat
  eventType : String
  eventDate : String
  eventVenue : String
  numGuests : Nat
  specialInstructions : String
  menuItems : List LineReq
  deriving Repr, DecidableEq

/-- The express-validator checks of the create-booking route that the
claims depend on: `eventType`/`eventVenue` non-empty,
`numGuests` an integer at least 1, `menuItems` an array of at least one
element, every quantity an integer at least 1.  The `isISO8601` date-format
check enters `createBooking` separately as `valOk`. -/
def validateReq (r : BookingReq) : Bool :=
  !r.eventType.isEmpty && !r.eventVenue.isEmpty &&
  decide (1 ≤ r.numGuests) && decide (1 ≤ r.menuItems.length) &&
  r.menuItems.all fun l => decide (1 ≤ l.quantity)

/-- The per-line lookup
`SELECT * FROM menu_items WHERE id = ? AND is_available = 1` followed by the
price snapshot; the loop returns a 400 naming the first line whose item is
missing or unavailable. -/
def resolveItems (menu : List MenuItem) :
    List LineReq → Except Nat (List ValidItem)
  | [] => .ok []
  | l :: ls =>
    match menu.find? (fun m => m.id == l.itemId && m.isAvailable) with
    | none => .error l.itemId
    | some m =>
      (resolveItems menu ls).map fun rest =>
        { itemId := l.itemId, quantity := l.quantity,
          unitPrice := m.pricePerServing,
          totalPrice := m.pricePerServing * (l.quantity : ℚ) } :: rest

/-- Sum of the snapshotted line totals (`totalAmount` accumulated in the
loop). -/
def itemsTotal (items : List ValidItem) : ℚ :=
  (items.map (·.totalPrice)).sum

/-- SQLite rowid allocation for an append-only table, modelled as
max existing id + 1 (`this.lastID`). -/
def nextId (ids : List Nat) : Nat := ids.foldr max 0 + 1

/-- Outcome of `POST /api/bookings` in the relational variant.  `created`
carries the response body: the booking and the full `validItems` array (the
response is built from the in-memory array, not read back from the
database). -/
inductive CreateResult where
  | created (b : Booking) (items : List ValidItem)
  | invalid
  | itemNotFound (itemId : Nat)
  | serverError
  deriving Repr, DecidableEq

/-- HTTP status of a booking-creation outcome in the relational variant
(both the validator rejection and the unresolved-item rejection are 400). -/
def CreateResult.status : CreateResult → Nat
  | .created _ _ => 201
  | .invalid => 400
  | .itemNotFound _ => 400
  | .serverError => 500

/-- `POST /api/bookings` in the relational variant: validator, per-line
resolution against available menu items with price snapshotting, one
`INSERT` for the booking row (status defaults to `pending`; modelled from
the spec, the table schema file is not part of the sources) and one
`INSERT` per line, with no transaction around them.

`valOk` is the verdict of the unmodelled string-format validators,
`bookOk` the success of the booking `INSERT` (its `if (err)` branch answers
500 and nothing has been written), and `itemOk i` the success of the
`INSERT` for line `i` — the code installs no error callback on these, so a
failing line insert is silently skipped while the 201 response is still
sent.  Note there is no date-exclusivity check anywhere in this route. -/
def createBooking (valOk bookOk : Bool) (itemOk : Nat → Bool)
    (s : St) (r : BookingReq) : CreateResult × St :=
  if !(valOk && validateReq r) then (.invalid, s)
  else
    match resolveItems s.menuItems r.menuItems with
    | .error i => (.itemNotFound i, s)
    | .ok validItems =>
      if !bookOk then (.serverError, s)
      else
        let newId := nextId (s.bookings.map (·.id))
        let b : Booking :=
          { id := newId, userId := r.userId, eventType := r.eventType,
            eventDate := r.eventDate, eventVenue := r.eventVenue,
            numGuests := r.numGuests,
            specialInstructions := r.specialInstructions,
            bookingStatus := "pending", totalAmount := itemsTotal validItems }
        let rows :=
          (validItems.enum.filter fun p => itemOk p.1).map fun p =>
            ({ bookingId := newId, itemId := p.2.itemId,
               quantity := p.2.quantity, unitPrice := p.2.unitPrice,
               totalPrice := p.2.totalPrice } : BookingItem)
        (.created b validItems,
         { s with bookings := s.bookings ++ [b],
                  bookingItems := s.bookingItems ++ rows })

/-- Same predicate as in the simple server, over `bookings` rows: a booking
blocks a date iff it is on that date and not cancelled. -/
def nonCancelledOn (d : String) (b : Booking) : Bool :=
  b.eventDate == d && b.bookingStatus != "cancelled"

/-- Result of `GET /api/bookings/:id` in the relational variant. -/
inductive GetResult where
  | ok (b : Booking) (items : List BookingItem)
  | notFound
  deriving Repr, DecidableEq

/-- `GET /api/bookings/:id` in the relational variant: the lookup query is
`WHERE b.id = ?` and, for a non-admin caller, additionally
`AND b.user_id = ?`; a row that survives the filter is returned together
with its `booking_items` rows, otherwise the route answers 404.  (The
columns joined in from `users`/`menu_items` for display carry no behaviour
and are elided.) -/
def getBooking (s : St) (c : Caller) (bid : Nat) : GetResult :=
  match s.bookings.find?
      (fun b => b.id == bid && (c.userType == "admin" || b.userId == c.id)) with
  | none => .notFound
  | some b => .ok b (s.bookingItems.filter fun bi => bi.bookingId == bid)

/-- `DELETE /api/menu/:id` (admin route): count the `booking_items` rows
referencing the item; a positive count is answered with HTTP 400 and no
write, otherwise the row is deleted and the route answers 200.  Returns the
HTTP status and the resulting store. -/
def deleteMenuItem (s : St) (itemId : Nat) : Nat × St :=
  if 0 < s.bookingItems.countP (fun bi => bi.itemId == itemId) then (400, s)
  else (200, { s with menuItems := s.menuItems.filter fun m => !(m.id == itemId) })

/-- The price-updating case of `PUT /api/menu/:id`: a 404 if the item does
not exist, otherwise `UPDATE menu_items SET price_per_serving = ?` on that
row.  Only the `menu_items` table is touched. -/
def updateMenuPrice (s : St) (itemId : Nat) (p : ℚ) : St :=
  if s.menuItems.any (fun m => m.id == itemId) then
    { s with menuItems := s.menuItems.map fun m =>
        if m.id == itemId then { m with pricePerServing := p } else m }
  else s

/-- The numeric value of the receipt number the receipts route allocates:
`` `R${Date.now().toString().slice(-6)}` `` — the last six decimal digits
of the current time, i.e. `now % 10^6` (every realistic `Date.now()` has
more than six digits). -/
def receiptNumberAt (now : Nat) : Nat := now % 1000000

/-- The response body of `POST /api/receipts/generate` in the relational
variant.  The object literal in the code has keys `id, receiptId,
receiptNumber, bookingId, customerName, customerEmail, customerPhone,
eventType, eventDate, eventVenue, numGuests, items, subtotal, totalAmount,
paymentMethod, paymentStatus, issuedDate, createdAt` — note that it has no
`taxAmount` and no `taxRate` key; the numeric fields it does have are
modelled here. -/
structure RcpResponse where
  receiptNumber : Nat
  subtotal : ℚ
  totalAmount : ℚ
  paymentMethod : String
  paymentStatus : String
  deriving Repr, DecidableEq

/-- Outcome of `POST /api/receipts/generate` in the relational variant:
`ok` carries the persisted `receipts` row (as bound) and the response
body. -/
inductive GenResult where
  | ok (row : List (String × SqlVal)) (resp : RcpResponse)
  | notFound
  | forbidden
  deriving Repr, DecidableEq

/-- The persisted row of the outcome, if any. -/
def GenResult.row? : GenResult → Option (List (String × SqlVal))
  | .ok row _ => some row
  | _ => none

/-- The receipt number of the response, if any. -/
def GenResult.rnum : GenResult → Option Nat
  | .ok _ resp => some resp.receiptNumber
  | _ => none

/-- `POST /api/receipts/generate` in the relational variant: look the
booking up (404 if missing), check the caller is admin or the owner (403),
compute `subtotal`, 12% tax and grand total, then execute

`INSERT INTO receipts (receipt_id, booking_id, receipt_number, subtotal,
tax_rate, tax_amount, total_amount, payment_method, payment_status,
issued_date) VALUES (?,?,?,?,?,?,?,?,?,?)`

with the value array `[receiptId, bookingId, receiptNumber, subtotal,
totalAmount, paymentMethod, paymentStatus, issuedDate]` — eight values for
ten parameters, bound positionally, the last two parameters staying NULL.
The `receipt_id` display string and the issued date are elided as opaque
strings; `today` stands for `new Date().toISOString().split('T')[0]`. -/
def generateReceipt (now : Nat) (today : String) (c : Caller) (s : St)
    (bookingId : Nat) (paymentMethod : String := "Cash/Card")
    (paymentStatus : String := "pending") : GenResult × St :=
  match s.bookings.find? (fun b => b.id == bookingId) with
  | none => (.notFound, s)
  | some booking =>
    if c.userType != "admin" && booking.userId != c.id then (.forbidden, s)
    else
      let subtotal := booking.totalAmount
      let taxRate : ℚ := 12 / 100
      let taxAmount := subtotal * taxRate
      let totalAmount := subtotal + taxAmount
      let rn := receiptNumberAt now
      let row := bindParams receiptColumns
        [.str ("RCP-" ++ toString now), .num (bookingId : ℚ),
         .str ("R" ++ toString rn), .num subtotal, .num totalAmount,
         .str paymentMethod, .str paymentStatus, .str today]
      let resp : RcpResponse :=
        { receiptNumber := rn, subtotal := subtotal,
          totalAmount := totalAmount, paymentMethod := paymentMethod,
          paymentStatus := paymentStatus }
      -- `taxRate`/`taxAmount` are computed by the route but appear in
      -- neither the bound values nor the response object
      let _ := taxAmount
      (.ok row resp, { s with receipts := s.receipts ++ [row] })

/-- `POST /api/auth/register` in the relational variant: validator verdict
`valOk` (username/email/password/name format checks), then
`SELECT id FROM users WHERE email = ? OR username = ?` answered with 409 if
a row exists, otherwise the user is inserted with role `customer` (active
by default; modelled from the spec, the table schema file is not part of
the sources), re-read, stripped of `password_hash` and returned.  `bhash`
stands for `bcrypt.hash`. -/
def register (valOk : Bool) (bhash : String → String) (users : List User)
    (username email password firstName lastName phoneNumber : String) :
    RegisterResult × List User :=
  if !valOk then (.badRequest, users)
  else if users.any (fun u => u.email == email || u.username == username) then
    (.conflict, users)
  else
    let newUser : User :=
      { id := nextId (users.map (·.id)), username := username, email := email,
        passwordHash := bhash password, firstName := firstName,
        lastName := lastName, phoneNumber := phoneNumber,
        userType := "customer", isActive := true }
    (.created (removeKey (userFields newUser) "password_hash"),
     users ++ [newUser])

/-- `POST /api/auth/login` in the relational variant:
`SELECT * FROM users WHERE email = ? AND is_active = 1`, then
`bcrypt.compare` (entering the model as `bcompare`), then the row stripped
of `password_hash` is returned with a token; `none` covers the 400/401
responses, which carry no user object. -/
def login (bcompare : String → String → Bool) (users : List User)
    (email password : String) : Option (List (String × String)) :=
  match users.find? (fun u => u.email == email && u.isActive) with
  | none => none
  | some u =>
    if bcompare password u.passwordHash then
      some (removeKey (userFields u) "password_hash")
    else none

end RelSrv

/-! ## Concrete fixtures for the closed evaluations -/

/-- A small catalog: two available items and one unavailable one. -/
def demoMenu : List MenuItem :=
  [{ id := 1, itemName := "Lechon", category := "Main Course",
     pricePerServing := 500, isAvailable := true },
   { id := 2, itemName := "Rice", category := "Side Dish",
     pricePerServing := 50, isAvailable := true },
   { id := 3, itemName := "Halo-Halo", category := "Dessert",
     pricePerServing := 120, isAvailable := false }]

/-- A booking request for the simple server: qty 2 of item 1 (500 each) and
qty 4 of item 2 (50 each). -/
def demoReqS : SimpleSrv.BookingReq :=
  { eventType := "Wedding", eventDate := "2025-06-01", eventVenue := "Manila",
    numGuests := 50, specialInstructions := "", customerName := "John Doe",
    customerEmail := "john@example.com", customerPhone := "",
    menuItems := some [⟨1, 2⟩, ⟨2, 4⟩] }

/-- The empty simple-server store with the demo catalog. -/
def demoStS : SimpleSrv.St :=
  { menu := demoMenu, bookings := [], receipts := [] }

/-- The booking the simple server creates from `demoReqS` on `demoStS`. -/
def demoBookingS : SimpleSrv.Booking :=
  { id := 1, customerName := "John Doe", customerEmail := "john@example.com",
    customerPhone := "", eventType := "Wedding", eventDate := "2025-06-01",
    eventVenue := "Manila", numGuests := 50, specialInstructions := "",
    bookingStatus := "pending", totalAmount := 1200,
    items := [{ itemId := 1, itemName := "Lechon", quantity := 2,
                unitPrice := 500, totalPrice := 1000 },
              { itemId := 2, itemName := "Rice", quantity := 4,
                unitPrice := 50, totalPrice := 200 }] }

/-- The same booking request in the relational variant, owned by user 7. -/
def demoReqR : RelSrv.BookingReq :=
  { userId := 7, eventType := "Wedding", eventDate := "2025-06-01",
    eventVenue := "Manila", numGuests := 50, specialInstructions := "",
    menuItems := [⟨1, 2⟩, ⟨2, 4⟩] }

/-- The empty relational store with the demo catalog. -/
def demoStR : RelSrv.St :=
  { menuItems := demoMenu, bookings := [], bookingItems := [], receipts := [] }

/-- The booking row the relational variant creates from `demoReqR` on
`demoStR`. -/
def demoBookingR : RelSrv.Booking :=
  { id := 1, userId := 7, eventType := "Wedding", eventDate := "2025-06-01",
    eventVenue := "Manila", numGuests := 50, specialInstructions := "",
    bookingStatus := "pending", totalAmount := 1200 }

/-- The resolved lines of `demoReqR` against `demoMenu`. -/
def demoItemsR : List RelSrv.ValidItem :=
  [{ itemId := 1, quantity := 2, unitPrice := 500, totalPrice := 1000 },
   { itemId := 2, quantity := 4, unitPrice := 50, totalPrice := 200 }]

/-- A stored simple-server booking with total 1000, for the receipt
evaluations. -/
def paidBookingS : SimpleSrv.Booking :=
  { id := 1, customerName := "Jane Roe", customerEmail := "jane@example.com",
    customerPhone := "", eventType := "Birthday", eventDate := "2025-07-04",
    eventVenue := "Cebu", numGuests := 20, specialInstructions := "",
    bookingStatus := "pending", totalAmount := 1000, items := [] }

/-- Simple-server store holding `paidBookingS`. -/
def receiptStS : SimpleSrv.St :=
  { menu := demoMenu, bookings := [paidBookingS], receipts := [] }

/-- A stored relational booking with total 1000, owned by user 7. -/
def paidBookingR : RelSrv.Booking :=
  { id := 1, userId := 7, eventType := "Birthday", eventDate := "2025-07-04",
    eventVenue := "Cebu", numGuests := 20, specialInstructions := "",
    bookingStatus := "pending", totalAmount := 1000 }

/-- Relational store holding `paidBookingR`. -/
def receiptStR : RelSrv.St :=
  { menuItems := demoMenu, bookings := [paidBookingR], bookingItems := [],
    receipts := [] }

/-- An admin caller. -/
def adminCaller : RelSrv.Caller := { id := 99, userType := "admin" }

/-- A relational store whose date 2025-06-01 is already held by a pending
booking of user 3. -/
def busyStR : RelSrv.St :=
  { menuItems := demoMenu,
    bookings := [{ id := 1, userId := 3, eventType := "Party",
                   eventDate := "2025-06-01", eventVenue := "Davao",
                   numGuests := 10, specialInstructions := "",
                   bookingStatus := "pending", totalAmount := 500 }],
    bookingItems := [], receipts := [] }

/-- A simple-server booking request whose `menuItems` field is present but
an empty array. -/
def emptyLinesReqS : SimpleSrv.BookingReq :=
  { eventType := "Wedding", eventDate := "2025-08-08", eventVenue := "Manila",
    numGuests := 50, specialInstructions := "", customerName := "John Doe",
    customerEmail := "john@example.com", customerPhone := "",
    menuItems := some [] }

/-- A relational booking request with an empty line list. -/
def emptyLinesReqR : RelSrv.BookingReq :=
  { userId := 7, eventType := "Wedding", eventDate := "2025-08-08",
    eventVenue := "Manila", numGuests := 50, specialInstructions := "",
    menuItems := [] }

/-- A relational booking request with a single line (item 1, qty 2). -/
def oneLineReqR : RelSrv.BookingReq :=
  { userId := 7, eventType := "Wedding", eventDate := "2025-09-09",
    eventVenue := "Manila", numGuests := 50, specialInstructions := "",
    menuItems := [⟨1, 2⟩] }

/-- The receipt the simple server generates for `paidBookingS` on
`receiptStS` (empty receipts store). -/
def demoReceiptS : SimpleSrv.Receipt :=
  { id := 1, receiptNumber := 1, bookingRef := 1, subtotal := 1000,
    taxRate := 12 / 100, taxAmount := 120, totalAmount := 1120,
    paymentMethod := "Cash", paymentStatus := "pending" }

/-- A relational store in which menu item 1 is referenced by a booking
line. -/
def referencedStR : RelSrv.St :=
  { menuItems := demoMenu,
    bookings := [paidBookingR],
    bookingItems := [{ bookingId := 1, itemId := 1, quantity := 2,
                       unitPrice := 500, totalPrice := 1000 }],
    receipts := [] }

/-- One stored simple-server user. -/
def demoUsersS : List SimpleSrv.User :=
  [{ id := 1, username := "maria", email := "maria@example.com",
     password := "secret123", firstName := "Maria", lastName := "Santos",
     phoneNumber := "0917", userType := "customer" }]

/-- A registration request reusing the stored user's email with different
names. -/
def demoRegReqS : SimpleSrv.RegisterReq :=
  { firstName := "Other", lastName := "Person", email := "maria@example.com",
    mobileNumber := "0918", password := "hunter22",
    repeatPassword := "hunter22" }

/-- One stored relational user. -/
def demoUsersR : List RelSrv.User :=
  [{ id := 1, username := "maria", email := "maria@example.com",
     passwordHash := "h$abc", firstName := "Maria", lastName := "Santos",
     phoneNumber := "0917", userType := "customer", isActive := true }]

/-- A booking of a customer with identifying content, in the simple-server
store. -/
def aliceBookingS : SimpleSrv.Booking :=
  { id := 1, customerName := "Alice Reyes",
    customerEmail := "alice@example.com", customerPhone := "0999",
    eventType := "Debut", eventDate := "2025-10-10", eventVenue := "QC",
    numGuests := 80, specialInstructions := "peanut allergy",
    bookingStatus := "pending", totalAmount := 2000, items := [] }

/-- Simple-server store holding `aliceBookingS`. -/
def aliceStS : SimpleSrv.St :=
  { menu := demoMenu, bookings := [aliceBookingS], receipts := [] }

/-- A non-admin caller who is not the owner (user 7) of the demo bookings. -/
def otherCustomer : RelSrv.Caller := { id := 8, userType := "customer" }

/-- The user object the simple server returns for `demoUsersS`'s user. -/
def mariaRespS : List (String × String) :=
  [("id", "1"), ("username", "maria"), ("email", "maria@example.com"),
   ("firstName", "Maria"), ("lastName", "Santos"), ("phoneNumber", "0917"),
   ("userType", "customer")]

/-- The user object the relational variant returns for `demoUsersR`'s
user. -/
def mariaRespR : List (String × String) :=
  [("id", "1"), ("username", "maria"), ("email", "maria@example.com"),
   ("first_name", "Maria"), ("last_name", "Santos"),
   ("phone_number", "0917"), ("user_type", "customer"),
   ("is_active", "true")]

/-- A simple-server store whose date 2025-06-01 is already held by a pending
booking. -/
def busyStS : SimpleSrv.St :=
  { menu := demoMenu,
    bookings := [{ id := 1, customerName := "Ann Cruz",
                   customerEmail := "ann@example.com", customerPhone := "",
                   eventType := "Party", eventDate := "2025-06-01",
                   eventVenue := "Davao", numGuests := 10,
                   specialInstructions := "", bookingStatus := "pending",
                   totalAmount := 500, items := [] }],
    receipts := [] }

end Catering

namespace Catering

/-! ## Helper lemmas -/

theorem mkBookingItem_spec (menu : List MenuItem) (l : LineReq)
    (it : SimpleSrv.BookingItem)
    (h : SimpleSrv.mkBookingItem menu l = some it) :
    it.totalPrice = it.unitPrice * (it.quantity : ℚ) ∧
    it.itemId = l.itemId ∧
    ∃ m, menu.find? (fun mm => mm.id == l.itemId) = some m ∧
      it.unitPrice = m.pricePerServing := by
  unfold SimpleSrv.mkBookingItem at h
  cases hf : menu.find? fun m => m.id == l.itemId with
  | none => rw [hf] at h; simp at h
  | some m =>
    rw [hf] at h
    simp only [Option.map_some', Option.some.injEq] at h
    subst h
    exact ⟨rfl, rfl, m, rfl, rfl⟩

theorem mkItems_spec (menu : List MenuItem) :
    ∀ (lines : List LineReq) (items : List SimpleSrv.BookingItem),
      SimpleSrv.mkItems menu lines = some items →
      ∀ it ∈ items, it.totalPrice = it.unitPrice * (it.quantity : ℚ) ∧
        ∃ m, menu.find? (fun mm => mm.id == it.itemId) = some m ∧
          it.unitPrice = m.pricePerServing := by
  intro lines
  induction lines with
  | nil =>
    intro items h it hit
    unfold SimpleSrv.mkItems at h
    simp only [Option.some.injEq] at h
    subst h
    simp at hit
  | cons l ls ih =>
    intro items h it hit
    unfold SimpleSrv.mkItems at h
    cases hm : SimpleSrv.mkBookingItem menu l with
    | none => rw [hm] at h; simp at h
    | some it0 =>
      rw [hm] at h
      cases hr : SimpleSrv.mkItems menu ls with
      | none => rw [hr] at h; simp at h
      | some rest =>
        rw [hr] at h
        simp only [Option.map_some', Option.some.injEq] at h
        subst h
        rcases List.mem_cons.mp hit with rfl | hmem
        · obtain ⟨ht, hid, m, hfind, hup⟩ := mkBookingItem_spec menu l it hm
          exact ⟨ht, m, by rw [hid]; exact hfind, hup⟩
        · exact ih rest hr it hmem

theorem sum_map_congr_mem {α : Type} (l : List α) (f g : α → ℚ)
    (h : ∀ a ∈ l, f a = g a) : (l.map f).sum = (l.map g).sum := by
  induction l with
  | nil => rfl
  | cons x xs ih =>
    simp only [List.map_cons, List.sum_cons]
    rw [h x (List.mem_cons_self x xs), ih fun a ha => h a (List.mem_cons_of_mem x ha)]

theorem createBookingS_created (s : SimpleSrv.St) (r : SimpleSrv.BookingReq)
    (b : SimpleSrv.Booking) (s' : SimpleSrv.St)
    (h : SimpleSrv.createBooking s r = (.created b, s')) :
    ∃ lines items, r.menuItems = some lines ∧
      SimpleSrv.requiredPresent r = true ∧
      SimpleSrv.dateAlreadyBooked s.bookings r.eventDate = false ∧
      SimpleSrv.mkItems s.menu lines = some items ∧
      b.totalAmount = SimpleSrv.itemsTotal items ∧
      b.items = items ∧ b.bookingStatus = "pending" ∧
      b.eventDate = r.eventDate ∧ b.id = s.bookings.length + 1 ∧
      s' = { s with bookings := s.bookings ++ [b] } := by
  unfold SimpleSrv.createBooking at h
  split at h
  · simp at h
  · rename_i hreq
    split at h
    · simp at h
    · rename_i hdate
      split at h
      · simp at h
      · rename_i lines hm
        split at h
        · simp at h
        · rename_i items hit
          simp only [] at h
          injection h with h1 h2
          injection h1 with hb
          subst hb
          refine ⟨lines, items, hm, ?_, ?_, hit, rfl, rfl, rfl, rfl, rfl, h2.symm⟩
          · simpa using hreq
          · simpa using hdate

theorem createBookingS_fail (s : SimpleSrv.St) (r : SimpleSrv.BookingReq)
    (res : SimpleSrv.CreateResult) (s' : SimpleSrv.St)
    (h : SimpleSrv.createBooking s r = (res, s'))
    (hne : ∀ b, res ≠ .created b) : s' = s := by
  unfold SimpleSrv.createBooking at h
  split at h
  · cases h; rfl
  · split at h
    · cases h; rfl
    · split at h
      · cases h; rfl
      · split at h
        · cases h; rfl
        · simp only [] at h
          cases h
          exact absurd rfl (hne _)

theorem resolveItems_spec (menu : List MenuItem) :
    ∀ (lines : List LineReq) (items : List RelSrv.ValidItem),
      RelSrv.resolveItems menu lines = .ok items →
      ∀ it ∈ items, it.totalPrice = it.unitPrice * (it.quantity : ℚ) ∧
        ∃ m, menu.find? (fun mm => mm.id == it.itemId && mm.isAvailable) = some m ∧
          it.unitPrice = m.pricePerServing ∧ m.isAvailable = true := by
  intro lines
  induction lines with
  | nil =>
    intro items h it hit
    unfold RelSrv.resolveItems at h
    simp only [Except.ok.injEq] at h
    subst h
    simp at hit
  | cons l ls ih =>
    intro items h it hit
    unfold RelSrv.resolveItems at h
    cases hf : menu.find? (fun m => m.id == l.itemId && m.isAvailable) with
    | none => rw [hf] at h; simp at h
    | some m =>
      rw [hf] at h
      cases hr : RelSrv.resolveItems menu ls with
      | error e => rw [hr] at h; simp [Except.map] at h
      | ok rest =>
        rw [hr] at h
        simp only [Except.map, Except.ok.injEq] at h
        subst h
        rcases List.mem_cons.mp hit with rfl | hmem
        · refine ⟨rfl, m, hf, rfl, ?_⟩
          have := List.find?_some hf
          simp at this
          exact this.2
        · exact ih rest hr it hmem

theorem resolveItems_err (menu : List MenuItem) :
    ∀ lines : List LineReq,
      (∃ l ∈ lines,
        menu.find? (fun m => m.id == l.itemId && m.isAvailable) = none) →
      ∃ i, RelSrv.resolveItems menu lines = .error i := by
  intro lines
  induction lines with
  | nil => rintro ⟨l, hl, _⟩; simp at hl
  | cons l ls ih =>
    rintro ⟨l', hl', hnone⟩
    rcases List.mem_cons.mp hl' with rfl | hmem
    · exact ⟨l'.itemId, by unfold RelSrv.resolveItems; rw [hnone]⟩
    · cases hf : menu.find? (fun m => m.id == l.itemId && m.isAvailable) with
      | none => exact ⟨l.itemId, by unfold RelSrv.resolveItems; rw [hf]⟩
      | some m =>
        obtain ⟨i, hi⟩ := ih ⟨l', hmem, hnone⟩
        refine ⟨i, ?_⟩
        unfold RelSrv.resolveItems
        rw [hf, hi]
        rfl

theorem createBookingR_created (valOk bookOk : Bool) (itemOk : Nat → Bool)
    (s : RelSrv.St) (r : RelSrv.BookingReq) (b : RelSrv.Booking)
    (items : List RelSrv.ValidItem) (s' : RelSrv.St)
    (h : RelSrv.createBooking valOk bookOk itemOk s r
          = (.created b items, s')) :
    valOk = true ∧ RelSrv.validateReq r = true ∧ bookOk = true ∧
    RelSrv.resolveItems s.menuItems r.menuItems = .ok items ∧
    b.totalAmount = RelSrv.itemsTotal items ∧
    b.bookingStatus = "pending" ∧ b.eventDate = r.eventDate ∧
    b.id = RelSrv.nextId (s.bookings.map (·.id)) ∧
    s'.bookings = s.bookings ++ [b] ∧
    s'.bookingItems = s.bookingItems ++
      ((items.enum.filter fun p => itemOk p.1).map fun p =>
        ({ bookingId := b.id, itemId := p.2.itemId, quantity := p.2.quantity,
           unitPrice := p.2.unitPrice, totalPrice := p.2.totalPrice } :
          RelSrv.BookingItem)) ∧
    s'.menuItems = s.menuItems := by
  unfold RelSrv.createBooking at h
  split at h
  · cases h
  · rename_i hval
    split at h
    · cases h
    · rename_i validItems hres
      split at h
      · cases h
      · rename_i hbook
        simp only [] at h
        injection h with h1 h2
        injection h1 with hb hitems
        subst hb
        subst hitems
        subst h2
        simp only [Bool.not_eq_true', Bool.not_eq_false] at hval hbook
        exact ⟨(Bool.and_eq_true _ _ |>.mp hval).1,
          (Bool.and_eq_true _ _ |>.mp hval).2, hbook, hres,
          rfl, rfl, rfl, rfl, rfl, rfl, rfl⟩

theorem createBookingR_fail (valOk bookOk : Bool) (itemOk : Nat → Bool)
    (s : RelSrv.St) (r : RelSrv.BookingReq) (res : RelSrv.CreateResult)
    (s' : RelSrv.St)
    (h : RelSrv.createBooking valOk bookOk itemOk s r = (res, s'))
    (hne : ∀ b items, res ≠ .created b items) : s' = s := by
  unfold RelSrv.createBooking at h
  split at h
  · cases h; rfl
  · split at h
    · cases h; rfl
    · split at h
      · cases h; rfl
      · simp only [] at h
        cases h
        exact absurd rfl (hne _ _)

theorem updateMenuPrice_only_menu (s : RelSrv.St) (itemId : Nat) (p : ℚ) :
    (RelSrv.updateMenuPrice s itemId p).bookings = s.bookings ∧
    (RelSrv.updateMenuPrice s itemId p).bookingItems = s.bookingItems ∧
    (RelSrv.updateMenuPrice s itemId p).receipts = s.receipts := by
  unfold RelSrv.updateMenuPrice
  split <;> exact ⟨rfl, rfl, rfl⟩

/-! ## Claims -/

/-- Claim C1: for every successfully created booking, in both variants, the
booking's `totalAmount` is the sum over its lines of the snapshotted unit
price times the quantity; each persisted line's total equals its snapshotted
unit price times its quantity, and the snapshotted price is the catalog
price at creation time; and later changes to catalog prices leave the
stored booking data unchanged (the simple server's read-back ignores the
catalog entirely, and the relational `PUT /api/menu/:id` touches only the
`menu_items` table). -/
theorem C1_totals_are_snapshots :
    (∀ (s : SimpleSrv.St) (r : SimpleSrv.BookingReq) (b : SimpleSrv.Booking)
       (s' : SimpleSrv.St),
       SimpleSrv.createBooking s r = (.created b, s') →
       b.totalAmount
           = (b.items.map fun it => it.unitPrice * (it.quantity : ℚ)).sum
         ∧ (∀ it ∈ b.items,
             it.totalPrice = it.unitPrice * (it.quantity : ℚ)
             ∧ ∃ m, s.menu.find? (fun mm => mm.id == it.itemId) = some m
                 ∧ it.unitPrice = m.pricePerServing)
         ∧ s'.bookings = s.bookings ++ [b]
         ∧ ∀ menu', SimpleSrv.getBooking { s' with menu := menu' } b.id
             = SimpleSrv.getBooking s' b.id)
  ∧ (∀ (valOk bookOk : Bool) (itemOk : Nat → Bool) (s : RelSrv.St)
       (r : RelSrv.BookingReq) (b : RelSrv.Booking)
       (items : List RelSrv.ValidItem) (s' : RelSrv.St),
       RelSrv.createBooking valOk bookOk itemOk s r = (.created b items, s') →
       b.totalAmount
           = (items.map fun it => it.unitPrice * (it.quantity : ℚ)).sum
         ∧ (∀ it ∈ items,
             it.totalPrice = it.unitPrice * (it.quantity : ℚ)
             ∧ ∃ m, s.menuItems.find?
                   (fun mm => mm.id == it.itemId && mm.isAvailable) = some m
                 ∧ it.unitPrice = m.pricePerServing)
         ∧ (∀ row ∈ s'.bookingItems, row ∈ s.bookingItems
             ∨ row.totalPrice = row.unitPrice * (row.quantity : ℚ))
         ∧ (∀ mid p,
             (RelSrv.updateMenuPrice s' mid p).bookings = s'.bookings
             ∧ (RelSrv.updateMenuPrice s' mid p).bookingItems
                 = s'.bookingItems)) := by
  constructor
  · intro s r b s' h
    obtain ⟨lines, items, hm, hreq, hdate, hit, htot, hbitems, hstat, hed,
      hid, hs'⟩ := createBookingS_created s r b s' h
    refine ⟨?_, ?_, ?_, ?_⟩
    · rw [htot, hbitems]
      unfold SimpleSrv.itemsTotal
      exact sum_map_congr_mem items _ _ fun it hmem =>
        (mkItems_spec s.menu lines items hit it hmem).1
    · intro it hmem
      rw [hbitems] at hmem
      exact mkItems_spec s.menu lines items hit it hmem
    · rw [hs']
    · intro menu'
      rfl
  · intro valOk bookOk itemOk s r b items s' h
    obtain ⟨hval, hreq, hbook, hres, htot, hstat, hed, hid, hsb, hsi, hsm⟩ :=
      createBookingR_created valOk bookOk itemOk s r b items s' h
    refine ⟨?_, ?_, ?_, ?_⟩
    · rw [htot]
      unfold RelSrv.itemsTotal
      exact sum_map_congr_mem items _ _ fun it hmem =>
        (resolveItems_spec s.menuItems r.menuItems items hres it hmem).1
    · intro it hmem
      obtain ⟨ht, m, hf, hup, _⟩ :=
        resolveItems_spec s.menuItems r.menuItems items hres it hmem
      exact ⟨ht, m, hf, hup⟩
    · intro row hmem
      rw [hsi] at hmem
      rcases List.mem_append.mp hmem with hold | hnew
      · exact Or.inl hold
      · right
        obtain ⟨p, hp, hrow⟩ := List.mem_map.mp hnew
        have hpitems : p.2 ∈ items :=
          List.snd_mem_of_mem_enum (List.mem_of_mem_filter hp)
        have := (resolveItems_spec s.menuItems r.menuItems items hres
          p.2 hpitems).1
        rw [← hrow]
        exact this
    · intro mid p
      exact ⟨(updateMenuPrice_only_menu s' mid p).1,
        (updateMenuPrice_only_menu s' mid p).2.1⟩

/-- Witness for C1: both parts applied to the demo fixtures — the simple
server turns `demoReqS` into `demoBookingS` (total 1200 = 2·500 + 4·50) and
the relational variant turns `demoReqR` into `demoBookingR` with lines
`demoItemsR`. -/
theorem C1_totals_are_snapshots_witness :
    (demoBookingS.totalAmount
        = (demoBookingS.items.map fun it =>
            it.unitPrice * (it.quantity : ℚ)).sum)
    ∧ (demoBookingR.totalAmount
        = (demoItemsR.map fun it => it.unitPrice * (it.quantity : ℚ)).sum) :=
  ⟨(C1_totals_are_snapshots.1 demoStS demoReqS demoBookingS
      { demoStS with bookings := [demoBookingS] }
      (by simp +decide [SimpleSrv.createBooking, demoStS, demoReqS, demoMenu,
            demoBookingS, SimpleSrv.requiredPresent,
            SimpleSrv.dateAlreadyBooked, SimpleSrv.mkItems,
            SimpleSrv.mkBookingItem, SimpleSrv.itemsTotal]; norm_num)).1,
   (C1_totals_are_snapshots.2 true true (fun _ => true) demoStR demoReqR
      demoBookingR demoItemsR
      { demoStR with bookings := [demoBookingR],
                     bookingItems :=
                       [{ bookingId := 1, itemId := 1, quantity := 2,
                          unitPrice := 500, totalPrice := 1000 },
                        { bookingId := 1, itemId := 2, quantity := 4,
                          unitPrice := 50, totalPrice := 200 }] }
      (by simp +decide [RelSrv.createBooking, demoStR, demoReqR, demoMenu,
            demoBookingR, demoItemsR, RelSrv.validateReq, RelSrv.resolveItems,
            RelSrv.itemsTotal, RelSrv.nextId, Except.map, List.enum,
            List.enumFrom]; norm_num)).1⟩

/-- Claim C2: receipt generation is a pure function of the input booking —
on the simple server the produced receipt satisfies `subtotal = S`,
`taxAmount = S · 0.12` and `totalAmount = S + taxAmount` for every stored
booking with total `S` (first conjunct: the triple of produced values is
fully determined by the looked-up booking), in particular `S = 1000` yields
`(1000, 120, 1120)`.  The remaining conjuncts document where the relational
variant breaks the claim: its receipts `INSERT` names ten columns but binds
only eight values, so the persisted row holds the grand total 1120 in
`tax_rate`, the payment-method string in `tax_amount`, and NULL in
`payment_status` — not `taxAmount = 120`. -/
theorem C2_receipt_tax_computation :
    (∀ (s : SimpleSrv.St) (bid : Nat),
       ((SimpleSrv.generateReceipt s bid).1.map fun rcp =>
           (rcp.subtotal, rcp.taxAmount, rcp.totalAmount))
         = (s.bookings.find? (fun b => b.id == bid)).map fun b =>
             (b.totalAmount, b.totalAmount * (12 / 100),
              b.totalAmount + b.totalAmount * (12 / 100)))
  ∧ (((SimpleSrv.generateReceipt receiptStS 1).1.map fun rcp =>
        (rcp.subtotal, rcp.taxAmount, rcp.totalAmount))
      = some (1000, 120, 1120))
  ∧ (((RelSrv.generateReceipt 1700000000000 "2025-07-04" adminCaller
        receiptStR 1).1.row?.bind fun row => RelSrv.lookupCol row "tax_amount")
      = some (.str "Cash/Card"))
  ∧ (((RelSrv.generateReceipt 1700000000000 "2025-07-04" adminCaller
        receiptStR 1).1.row?.bind fun row => RelSrv.lookupCol row "tax_rate")
      = some (.num 1120))
  ∧ (((RelSrv.generateReceipt 1700000000000 "2025-07-04" adminCaller
        receiptStR 1).1.row?.bind fun row =>
          RelSrv.lookupCol row "payment_status")
      = some .null) := by
  refine ⟨?_, ?_, ?_, ?_, ?_⟩
  · intro s bid
    cases hf : s.bookings.find? fun b => b.id == bid with
    | none => simp [SimpleSrv.generateReceipt, hf]
    | some b => simp [SimpleSrv.generateReceipt, hf]
  · simp +decide [SimpleSrv.generateReceipt, receiptStS, paidBookingS]
    norm_num
  · simp +decide [RelSrv.generateReceipt, receiptStR, paidBookingR,
      adminCaller, RelSrv.bindParams, RelSrv.receiptColumns, RelSrv.lookupCol,
      RelSrv.GenResult.row?, RelSrv.receiptNumberAt]
  · simp +decide [RelSrv.generateReceipt, receiptStR, paidBookingR,
      adminCaller, RelSrv.bindParams, RelSrv.receiptColumns, RelSrv.lookupCol,
      RelSrv.GenResult.row?, RelSrv.receiptNumberAt]
    norm_num
  · simp +decide [RelSrv.generateReceipt, receiptStR, paidBookingR,
      adminCaller, RelSrv.bindParams, RelSrv.receiptColumns, RelSrv.lookupCol,
      RelSrv.GenResult.row?, RelSrv.receiptNumberAt]

/-- Claim C3 is false as stated: the relational `POST /api/bookings`
performs no date-exclusivity check.  On a store whose date 2025-06-01 is
held by a pending booking, a second request for 2025-06-01 is answered 201
(not 409 Conflict) and the store afterwards holds two non-cancelled
bookings on that date. -/
theorem C3_counterexample :
    ((RelSrv.createBooking true true (fun _ => true) busyStR demoReqR).1.status
        = 201)
    ∧ ((RelSrv.createBooking true true (fun _ => true) busyStR
          demoReqR).2.bookings.countP (RelSrv.nonCancelledOn "2025-06-01")
        = 2) := by
  constructor
  · simp +decide [RelSrv.createBooking, busyStR, demoReqR, demoMenu,
      RelSrv.validateReq, RelSrv.resolveItems, RelSrv.nextId,
      RelSrv.CreateResult.status, Except.map]
  · simp +decide [RelSrv.createBooking, busyStR, demoReqR, demoMenu,
      RelSrv.validateReq, RelSrv.resolveItems, RelSrv.nextId,
      RelSrv.nonCancelledOn, Except.map, List.countP_cons]

/-- Claim C3 (amended): the date-exclusivity behaviour belongs to the
JSON-file variant only.  There, a request whose required fields are present
and whose `eventDate` is already held by a non-cancelled booking is
answered 409 Conflict with the store unchanged; and booking creation
preserves "at most one non-cancelled booking per event date".  (The
relational variant has no such check — see the counterexample — and the
unguarded status-update route can also reintroduce duplicates by
un-cancelling.) -/
theorem C3_date_exclusivity_json :
    (∀ (s : SimpleSrv.St) (r : SimpleSrv.BookingReq),
       SimpleSrv.requiredPresent r = true →
       SimpleSrv.dateAlreadyBooked s.bookings r.eventDate = true →
       SimpleSrv.createBooking s r = (.conflict, s)
       ∧ SimpleSrv.CreateResult.status (SimpleSrv.CreateResult.conflict) = 409)
  ∧ (∀ (s : SimpleSrv.St) (r : SimpleSrv.BookingReq),
       (∀ d, s.bookings.countP (SimpleSrv.nonCancelledOn d) ≤ 1) →
       ∀ d, (SimpleSrv.createBooking s r).2.bookings.countP
              (SimpleSrv.nonCancelledOn d) ≤ 1) := by
  constructor
  · intro s r hreq hdate
    refine ⟨?_, rfl⟩
    unfold SimpleSrv.createBooking
    rw [if_neg (by simp [hreq]), if_pos hdate]
  · intro s r hinv d
    rcases hc : SimpleSrv.createBooking s r with ⟨res, s'⟩
    show s'.bookings.countP _ ≤ 1
    rcases hres : res with b | _ | _ | _
    · subst hres
      obtain ⟨lines, items, hm, hreq, hdate, hit, _, _, hstat, hed, _, hs'⟩ :=
        createBookingS_created s r b s' hc
      subst hs'
      simp only [List.countP_append, List.countP_cons, List.countP_nil]
      by_cases hdd : SimpleSrv.nonCancelledOn d b = true
      · have hdeq : b.eventDate = d := by
          unfold SimpleSrv.nonCancelledOn at hdd
          simpa using (Bool.and_eq_true _ _ |>.mp hdd).1
        have hzero : s.bookings.countP (SimpleSrv.nonCancelledOn d) = 0 := by
          rw [List.countP_eq_zero]
          intro a ha
          have := (List.any_eq_false.mp
            (by simpa [SimpleSrv.dateAlreadyBooked] using hdate)) a ha
          rw [← hdeq, hed]
          exact this
        simp [hzero, hdd]
      · have : (if SimpleSrv.nonCancelledOn d b then 1 else 0) = 0 := by
          simp [hdd]
        rw [this]
        simpa using hinv d
    all_goals
      subst hres
      rw [createBookingS_fail s r _ s' hc (by intro b h; cases h)]
      exact hinv d

/-- Witness for the amended C3: on `busyStS` (date 2025-06-01 pending) the
simple server answers the same-date request `demoReqS` with 409 and leaves
the store unchanged, and the one-per-date bound holds afterwards. -/
theorem C3_date_exclusivity_json_witness :
    SimpleSrv.createBooking busyStS demoReqS
        = (SimpleSrv.CreateResult.conflict, busyStS)
    ∧ ∀ d, (SimpleSrv.createBooking busyStS demoReqS).2.bookings.countP
            (SimpleSrv.nonCancelledOn d) ≤ 1 :=
  ⟨(C3_date_exclusivity_json.1 busyStS demoReqS (by decide) (by decide)).1,
   C3_date_exclusivity_json.2 busyStS demoReqS
     (by intro d
         simp only [busyStS, List.countP_cons, List.countP_nil]
         split <;> norm_num) ⟩

theorem generateReceiptS_some (s : SimpleSrv.St) (bid : Nat) (pm ps : String)
    (rcp : SimpleSrv.Receipt) (s' : SimpleSrv.St)
    (h : SimpleSrv.generateReceipt s bid pm ps = (some rcp, s')) :
    rcp.receiptNumber = s.receipts.length + 1 ∧
    s'.receipts = s.receipts ++ [rcp] := by
  unfold SimpleSrv.generateReceipt at h
  split at h
  · simp at h
  · simp only [] at h
    injection h with h1 h2
    injection h1 with hr
    subst hr
    subst h2
    exact ⟨rfl, rfl⟩

theorem foldr_max_range' : ∀ (n b : Nat),
    (List.range' 1 n).foldr max b = max b n := by
  intro n
  induction n with
  | zero => intro b; simp
  | succ k ih =>
    intro b
    rw [List.range'_1_concat, List.foldr_append]
    simp only [List.foldr]
    rw [ih]
    have h2 : k ≤ max (1 + k) b :=
      le_trans (Nat.le_add_left k 1) (le_max_left _ _)
    rw [Nat.max_eq_left h2, Nat.max_comm, Nat.add_comm]

/-- Claim C4 is false as stated: in the relational variant the receipt
number is the last six decimal digits of `Date.now()`, not `max + 1`.  Two
sequential single-threaded generations at times 1999999999 and 2000000000
produce receipt numbers 999999 and then 0 — the later number is smaller. -/
theorem C4_counterexample :
    ((RelSrv.generateReceipt 1999999999 "2025-07-04" adminCaller receiptStR
        1).1.rnum = some 999999)
    ∧ (((RelSrv.generateReceipt 2000000000 "2025-07-04" adminCaller
          (RelSrv.generateReceipt 1999999999 "2025-07-04" adminCaller
            receiptStR 1).2 1).1.rnum) = some 0) := by
  constructor <;>
    simp +decide [RelSrv.generateReceipt, receiptStR, paidBookingR,
      adminCaller, RelSrv.receiptNumberAt, RelSrv.GenResult.rnum,
      RelSrv.bindParams, RelSrv.receiptColumns]

/-- Claim C4 (amended): the sequential-numbering behaviour belongs to the
JSON-file variant only.  There the route allocates
`receiptNumber = receipts.length + 1`; on a store whose receipts are
numbered `1..n` (true of every store grown by this route from the empty
one), the fresh number is strictly larger than every previously issued
number, equals the maximum previously issued number plus one, and the
store stays sequentially numbered.  In the relational variant the number is
timestamp-derived and not monotonic (see the counterexample). -/
theorem C4_receipt_numbering :
    ∀ (s : SimpleSrv.St) (bid : Nat) (pm ps : String)
      (rcp : SimpleSrv.Receipt) (s' : SimpleSrv.St),
      SimpleSrv.seqNumbered s.receipts →
      SimpleSrv.generateReceipt s bid pm ps = (some rcp, s') →
      rcp.receiptNumber = s.receipts.length + 1
      ∧ (∀ r0 ∈ s.receipts, r0.receiptNumber < rcp.receiptNumber)
      ∧ rcp.receiptNumber
          = ((s.receipts.map fun r0 => r0.receiptNumber).foldr max 0) + 1
      ∧ SimpleSrv.seqNumbered s'.receipts := by
  intro s bid pm ps rcp s' hseq h
  obtain ⟨hnum, hs'⟩ := generateReceiptS_some s bid pm ps rcp s' h
  refine ⟨hnum, ?_, ?_, ?_⟩
  · intro r0 hr0
    have hmem : r0.receiptNumber ∈ List.range' 1 s.receipts.length :=
      hseq ▸ List.mem_map_of_mem _ hr0
    have := List.mem_range'_1.mp hmem
    rw [hnum]
    omega
  · rw [hnum, hseq, foldr_max_range', Nat.zero_max]
  · unfold SimpleSrv.seqNumbered
    rw [hs', List.map_append, hseq, List.length_append]
    simp only [List.map_cons, List.map_nil, hnum, List.length_singleton]
    rw [List.range'_1_concat, Nat.add_comm 1 s.receipts.length]

/-- Witness for the amended C4: generating the first receipt on the empty
receipts store yields number 1 = 0 + 1 and a sequentially numbered store. -/
theorem C4_receipt_numbering_witness :
    demoReceiptS.receiptNumber = receiptStS.receipts.length + 1
    ∧ SimpleSrv.seqNumbered
        ({ receiptStS with receipts := [demoReceiptS] } : SimpleSrv.St).receipts :=
  have h := C4_receipt_numbering receiptStS 1 "Cash" "pending" demoReceiptS
    { receiptStS with receipts := [demoReceiptS] } (by rfl)
    (by simp +decide [SimpleSrv.generateReceipt, receiptStS, paidBookingS,
          demoReceiptS]
        norm_num)
  ⟨h.1, h.2.2.2⟩

/-- Claim C5 is false as stated for the JSON-file variant: in JS an empty
array is truthy, so `POST /api/bookings` on the simple server accepts a
request whose `menuItems` is `[]` — it answers 201 and persists a booking
with no lines and total 0 instead of rejecting with 400.  (The same
variant also never checks `isAvailable`, and an unknown `itemId` crashes
into a 500, not a 400.) -/
theorem C5_counterexample :
    ((SimpleSrv.createBooking demoStS emptyLinesReqS).1.status = 201)
    ∧ ((SimpleSrv.createBooking demoStS emptyLinesReqS).2.bookings.length
        = 1) := by
  constructor <;>
    simp +decide [SimpleSrv.createBooking, demoStS, demoMenu, emptyLinesReqS,
      SimpleSrv.requiredPresent, SimpleSrv.dateAlreadyBooked,
      SimpleSrv.mkItems, SimpleSrv.itemsTotal, SimpleSrv.CreateResult.status]

/-- Claim C5 (amended): the validation behaviour holds in the relational
variant.  There, every request whose line list is empty, or in which some
referenced item does not resolve to an available `menu_items` row, is
answered with HTTP 400 and the store is unchanged — regardless of the
other validator verdicts and of the storage-failure pattern. -/
theorem C5_validation_rel :
    ∀ (valOk bookOk : Bool) (itemOk : Nat → Bool) (s : RelSrv.St)
      (r : RelSrv.BookingReq),
      (r.menuItems = []
       ∨ ∃ l ∈ r.menuItems,
           s.menuItems.find? (fun m => m.id == l.itemId && m.isAvailable)
             = none) →
      (RelSrv.createBooking valOk bookOk itemOk s r).1.status = 400
      ∧ (RelSrv.createBooking valOk bookOk itemOk s r).2 = s := by
  intro valOk bookOk itemOk s r hbad
  cases hvb : valOk && RelSrv.validateReq r with
  | false =>
    have : RelSrv.createBooking valOk bookOk itemOk s r = (.invalid, s) := by
      unfold RelSrv.createBooking
      rw [hvb]
      rfl
    rw [this]
    exact ⟨rfl, rfl⟩
  | true =>
    have hreq : RelSrv.validateReq r = true := (Bool.and_eq_true _ _ |>.mp hvb).2
    have hlen : 1 ≤ r.menuItems.length := by
      unfold RelSrv.validateReq at hreq
      simp only [Bool.and_eq_true, decide_eq_true_eq] at hreq
      exact hreq.1.2
    rcases hbad with hemp | hun
    · rw [hemp] at hlen
      simp at hlen
    · obtain ⟨i, hi⟩ := resolveItems_err s.menuItems r.menuItems hun
      have : RelSrv.createBooking valOk bookOk itemOk s r
          = (.itemNotFound i, s) := by
        unfold RelSrv.createBooking
        rw [hvb, hi]
        rfl
      rw [this]
      exact ⟨rfl, rfl⟩

/-- Witness for the amended C5: the relational variant rejects the
empty-line request `emptyLinesReqR` with 400 and leaves `demoStR`
unchanged. -/
theorem C5_validation_rel_witness :
    (RelSrv.createBooking true true (fun _ => true) demoStR
        emptyLinesReqR).1.status = 400
    ∧ (RelSrv.createBooking true true (fun _ => true) demoStR
        emptyLinesReqR).2 = demoStR :=
  C5_validation_rel true true (fun _ => true) demoStR emptyLinesReqR
    (Or.inl rfl)

/-- Claim C6 is false as stated for the relational variant: the booking row
and the line rows are inserted by separate statements without a
transaction, and the per-line inserts have no error handler.  With the
booking insert succeeding and the line insert failing, the route still
answers 201 and the store afterwards holds the booking but none of its
lines. -/
theorem C6_counterexample :
    ((RelSrv.createBooking true true (fun _ => false) demoStR
        oneLineReqR).1.status = 201)
    ∧ ((RelSrv.createBooking true true (fun _ => false) demoStR
        oneLineReqR).2.bookings.length = 1)
    ∧ ((RelSrv.createBooking true true (fun _ => false) demoStR
        oneLineReqR).2.bookingItems = []) := by
  refine ⟨?_, ?_, ?_⟩ <;>
    simp +decide [RelSrv.createBooking, demoStR, demoMenu, oneLineReqR,
      RelSrv.validateReq, RelSrv.resolveItems, RelSrv.itemsTotal,
      RelSrv.nextId, RelSrv.CreateResult.status, Except.map, List.enum,
      List.enumFrom]

/-- Claim C6 (amended): in the JSON-file variant creation is atomic — the
booking (status `pending`) is written with its lines embedded in one store
update, and on every non-created outcome the store is unchanged.  In the
relational variant the same holds only when no statement fails: with every
insert succeeding, the booking row (status `pending`) and one line row per
requested line are appended, and on every non-created outcome the store is
unchanged; under a line-insert failure atomicity is lost (see the
counterexample). -/
theorem C6_atomic_persistence :
    (∀ (s : SimpleSrv.St) (r : SimpleSrv.BookingReq) (b : SimpleSrv.Booking)
       (s' : SimpleSrv.St),
       SimpleSrv.createBooking s r = (.created b, s') →
       s'.bookings = s.bookings ++ [b] ∧ b.bookingStatus = "pending")
  ∧ (∀ (s : SimpleSrv.St) (r : SimpleSrv.BookingReq)
       (res : SimpleSrv.CreateResult) (s' : SimpleSrv.St),
       SimpleSrv.createBooking s r = (res, s') →
       (∀ b, res ≠ .created b) → s' = s)
  ∧ (∀ (valOk : Bool) (s : RelSrv.St) (r : RelSrv.BookingReq)
       (b : RelSrv.Booking) (items : List RelSrv.ValidItem) (s' : RelSrv.St),
       RelSrv.createBooking valOk true (fun _ => true) s r
           = (.created b items, s') →
       s'.bookings = s.bookings ++ [b] ∧ b.bookingStatus = "pending"
       ∧ s'.bookingItems = s.bookingItems ++ (items.enum.map fun p =>
           ({ bookingId := b.id, itemId := p.2.itemId,
              quantity := p.2.quantity, unitPrice := p.2.unitPrice,
              totalPrice := p.2.totalPrice } : RelSrv.BookingItem))
       ∧ (items.enum.map fun p =>
           ({ bookingId := b.id, itemId := p.2.itemId,
              quantity := p.2.quantity, unitPrice := p.2.unitPrice,
              totalPrice := p.2.totalPrice } : RelSrv.BookingItem)).length
           = items.length)
  ∧ (∀ (valOk bookOk : Bool) (itemOk : Nat → Bool) (s : RelSrv.St)
       (r : RelSrv.BookingReq) (res : RelSrv.CreateResult) (s' : RelSrv.St),
       RelSrv.createBooking valOk bookOk itemOk s r = (res, s') →
       (∀ b items, res ≠ .created b items) → s' = s) := by
  refine ⟨?_, ?_, ?_, ?_⟩
  · intro s r b s' h
    obtain ⟨_, _, _, _, _, _, _, _, hstat, _, _, hs'⟩ :=
      createBookingS_created s r b s' h
    exact ⟨by rw [hs'], hstat⟩
  · intro s r res s' h hne
    exact createBookingS_fail s r res s' h hne
  · intro valOk s r b items s' h
    obtain ⟨_, _, _, _, _, hstat, _, _, hsb, hsi, _⟩ :=
      createBookingR_created valOk true (fun _ => true) s r b items s' h
    refine ⟨hsb, hstat, ?_, by simp⟩
    rw [hsi]
    congr 1
    congr 1
    simp
  · intro valOk bookOk itemOk s r res s' h hne
    exact createBookingR_fail valOk bookOk itemOk s r res s' h hne

/-- Witness for the amended C6: the demo creations persist booking and
lines together (simple server) and booking row plus both line rows
(relational variant, no failing statement). -/
theorem C6_atomic_persistence_witness :
    (({ demoStS with bookings := [demoBookingS] } : SimpleSrv.St).bookings
        = demoStS.bookings ++ [demoBookingS])
    ∧ demoBookingR.bookingStatus = "pending" :=
  ⟨(C6_atomic_persistence.1 demoStS demoReqS demoBookingS
      { demoStS with bookings := [demoBookingS] }
      (by simp +decide [SimpleSrv.createBooking, demoStS, demoReqS, demoMenu,
            demoBookingS, SimpleSrv.requiredPresent,
            SimpleSrv.dateAlreadyBooked, SimpleSrv.mkItems,
            SimpleSrv.mkBookingItem, SimpleSrv.itemsTotal]; norm_num)).1,
   (C6_atomic_persistence.2.2.1 true demoStR demoReqR demoBookingR demoItemsR
      { demoStR with bookings := [demoBookingR],
                     bookingItems :=
                       [{ bookingId := 1, itemId := 1, quantity := 2,
                          unitPrice := 500, totalPrice := 1000 },
                        { bookingId := 1, itemId := 2, quantity := 4,
                          unitPrice := 50, totalPrice := 200 }] }
      (by simp +decide [RelSrv.createBooking, demoStR, demoReqR, demoMenu,
            demoBookingR, demoItemsR, RelSrv.validateReq, RelSrv.resolveItems,
            RelSrv.itemsTotal, RelSrv.nextId, Except.map, List.enum,
            List.enumFrom]; norm_num)).2.1⟩

/-- Claim C7 is false as stated: deleting menu item 1, which is referenced
by a booking line, is refused with HTTP 400 — not 409 Conflict as the
error taxonomy prescribes — though the item does stay in place. -/
theorem C7_counterexample :
    RelSrv.deleteMenuItem referencedStR 1 = (400, referencedStR)
    ∧ (400 : Nat) ≠ 409
    ∧ referencedStR.menuItems.any (fun m => m.id == 1) = true := by
  refine ⟨?_, by decide, by decide⟩
  decide

/-- Claim C7 (amended): deleting a MenuItem referenced by at least one
BookingLine fails with HTTP 400 (not 409) and leaves the store — in
particular the item — unchanged; deleting an unreferenced item succeeds
with 200 and removes exactly the rows with that id from the catalog. -/
theorem C7_delete_menu_item :
    ∀ (s : RelSrv.St) (itemId : Nat),
      (0 < s.bookingItems.countP (fun bi => bi.itemId == itemId) →
        RelSrv.deleteMenuItem s itemId = (400, s))
      ∧ (s.bookingItems.countP (fun bi => bi.itemId == itemId) = 0 →
        (RelSrv.deleteMenuItem s itemId).1 = 200
        ∧ (RelSrv.deleteMenuItem s itemId).2.menuItems
            = s.menuItems.filter (fun m => !(m.id == itemId))
        ∧ ∀ m ∈ (RelSrv.deleteMenuItem s itemId).2.menuItems,
            m.id ≠ itemId) := by
  intro s itemId
  constructor
  · intro hpos
    unfold RelSrv.deleteMenuItem
    rw [if_pos hpos]
  · intro hzero
    have hneg : ¬ 0 < s.bookingItems.countP (fun bi => bi.itemId == itemId) := by
      omega
    unfold RelSrv.deleteMenuItem
    rw [if_neg hneg]
    refine ⟨rfl, rfl, ?_⟩
    intro m hm
    have := List.of_mem_filter hm
    simpa using this

/-- Witness for the amended C7: on `referencedStR` the referenced item 1 is
refused with 400 and kept; on `demoStR` (no booking lines) deleting item 3
succeeds with 200. -/
theorem C7_delete_menu_item_witness :
    RelSrv.deleteMenuItem referencedStR 1 = (400, referencedStR)
    ∧ (RelSrv.deleteMenuItem demoStR 3).1 = 200 :=
  ⟨(C7_delete_menu_item referencedStR 1).1 (by decide),
   ((C7_delete_menu_item demoStR 3).2 (by decide)).1⟩

/-- Claim C8: in both variants, a registration request whose email already
belongs to a stored user is answered 409 Conflict and the user list is
unchanged — in the relational variant for every supplied username, in the
simple server (which derives the username from the email) for every
request that passes its input prechecks. -/
theorem C8_duplicate_email :
    (∀ (users : List SimpleSrv.User) (r : SimpleSrv.RegisterReq),
       SimpleSrv.prechecksOk r = true →
       (∃ u ∈ users, u.email = r.email) →
       SimpleSrv.register users r = (.conflict, users)
       ∧ RegisterResult.status (RegisterResult.conflict) = 409)
  ∧ (∀ (bhash : String → String) (users : List RelSrv.User)
       (username email password firstName lastName phoneNumber : String),
       (∃ u ∈ users, u.email = email) →
       RelSrv.register true bhash users username email password firstName
           lastName phoneNumber = (.conflict, users)
       ∧ RegisterResult.status (RegisterResult.conflict) = 409) := by
  constructor
  · intro users r hpre hdup
    refine ⟨?_, rfl⟩
    have hany : users.any (fun u => u.email == r.email) = true := by
      obtain ⟨u, hu, he⟩ := hdup
      exact List.any_eq_true.mpr ⟨u, hu, by simp [he]⟩
    unfold SimpleSrv.register
    rw [if_neg (by simp [hpre]), if_pos hany]
  · intro bhash users username email password firstName lastName phoneNumber
      hdup
    refine ⟨?_, rfl⟩
    have hany : users.any
        (fun u => u.email == email || u.username == username) = true := by
      obtain ⟨u, hu, he⟩ := hdup
      exact List.any_eq_true.mpr ⟨u, hu, by simp [he]⟩
    unfold RelSrv.register
    rw [if_neg (by simp), if_pos hany]

/-- Witness for C8: registering with the already-stored email
`maria@example.com` is refused 409 by both variants, with the user lists
unchanged — in the relational variant under the fresh username
`newname`. -/
theorem C8_duplicate_email_witness :
    SimpleSrv.register demoUsersS demoRegReqS
        = (RegisterResult.conflict, demoUsersS)
    ∧ RelSrv.register true (fun p => p ++ "#h") demoUsersR "newname"
        "maria@example.com" "hunter22" "Other" "Person" "0918"
        = (RegisterResult.conflict, demoUsersR) :=
  ⟨(C8_duplicate_email.1 demoUsersS demoRegReqS (by decide) (by decide)).1,
   (C8_duplicate_email.2 (fun p => p ++ "#h") demoUsersR "newname"
      "maria@example.com" "hunter22" "Other" "Person" "0918" (by decide)).1⟩

/-- Claim C9 is false as stated: the simple server's
`GET /api/bookings/:id` has no authentication middleware and no ownership
filter, so any caller — in particular an authenticated customer other than
the owner — receives the full booking, here including the owner's email,
instead of Forbidden/NotFound. -/
theorem C9_counterexample :
    SimpleSrv.getBooking aliceStS 1 = some aliceBookingS
    ∧ ((SimpleSrv.getBooking aliceStS 1).map fun b => b.customerEmail)
        = some "alice@example.com" := by
  constructor <;> decide

/-- Claim C9 (amended): the access control holds in the relational variant.
A non-admin caller requesting a booking id that none of their own bookings
carry is answered NotFound with no booking data; an admin is answered with
the booking and its lines; and the answer a non-admin caller receives for
such an id is identical across any two stores in which the id does not
belong to them — independent of other users' booking contents.  The simple
server leaks any booking to any caller (see the counterexample). -/
theorem C9_booking_access_rel :
    (∀ (s : RelSrv.St) (c : RelSrv.Caller) (bid : Nat),
       c.userType ≠ "admin" →
       (∀ b ∈ s.bookings, b.id = bid → b.userId ≠ c.id) →
       RelSrv.getBooking s c bid = .notFound)
  ∧ (∀ (s : RelSrv.St) (c : RelSrv.Caller) (bid : Nat) (b : RelSrv.Booking),
       c.userType = "admin" →
       s.bookings.find? (fun b0 => b0.id == bid) = some b →
       RelSrv.getBooking s c bid
         = .ok b (s.bookingItems.filter fun bi => bi.bookingId == bid))
  ∧ (∀ (s₁ s₂ : RelSrv.St) (c : RelSrv.Caller) (bid : Nat),
       c.userType ≠ "admin" →
       (∀ b ∈ s₁.bookings, b.id = bid → b.userId ≠ c.id) →
       (∀ b ∈ s₂.bookings, b.id = bid → b.userId ≠ c.id) →
       RelSrv.getBooking s₁ c bid = RelSrv.getBooking s₂ c bid) := by
  have h1 : ∀ (s : RelSrv.St) (c : RelSrv.Caller) (bid : Nat),
      c.userType ≠ "admin" →
      (∀ b ∈ s.bookings, b.id = bid → b.userId ≠ c.id) →
      RelSrv.getBooking s c bid = .notFound := by
    intro s c bid hadmin hown
    unfold RelSrv.getBooking
    have hnone : s.bookings.find?
        (fun b => b.id == bid && (c.userType == "admin" || b.userId == c.id))
          = none := by
      apply List.find?_eq_none.mpr
      intro b hb
      simp only [Bool.and_eq_true, Bool.or_eq_true, beq_iff_eq]
      rintro ⟨hid, hc | hu⟩
      · exact hadmin hc
      · exact hown b hb hid hu
    rw [hnone]
  refine ⟨h1, ?_, ?_⟩
  · intro s c bid b hadmin hfind
    unfold RelSrv.getBooking
    have hp : (fun b0 : RelSrv.Booking => b0.id == bid &&
        (c.userType == "admin" || b0.userId == c.id))
        = fun b0 => b0.id == bid := by
      funext b0
      simp [hadmin]
    rw [hp, hfind]
  · intro s₁ s₂ c bid ha ho1 ho2
    rw [h1 s₁ c bid ha ho1, h1 s₂ c bid ha ho2]

/-- Witness for the amended C9: customer 8 asking for user 7's booking 1 on
`receiptStR` gets NotFound, while the admin gets the booking. -/
theorem C9_booking_access_rel_witness :
    RelSrv.getBooking receiptStR otherCustomer 1 = .notFound
    ∧ RelSrv.getBooking receiptStR adminCaller 1
        = .ok paidBookingR (receiptStR.bookingItems.filter
            fun bi => bi.bookingId == 1) :=
  ⟨C9_booking_access_rel.1 receiptStR otherCustomer 1 (by decide) (by decide),
   C9_booking_access_rel.2.1 receiptStR adminCaller 1 paidBookingR
     (by decide) (by decide)⟩

theorem removeKey_password_keysS (u : SimpleSrv.User) :
    (removeKey (SimpleSrv.userFields u) "password").map Prod.fst
      = ["id", "username", "email", "firstName", "lastName", "phoneNumber",
         "userType"] := by
  simp +decide [SimpleSrv.userFields, removeKey]

theorem removeKey_hash_keysR (u : RelSrv.User) :
    (removeKey (RelSrv.userFields u) "password_hash").map Prod.fst
      = ["id", "username", "email", "first_name", "last_name",
         "phone_number", "user_type", "is_active"] := by
  simp +decide [RelSrv.userFields, removeKey]

/-- Claim C10: every successful login and every successful registration, in
both variants, answers with a user object whose key set contains neither
`password` nor `password_hash` — the stored credential is stripped before
the response is sent. -/
theorem C10_credential_stripping :
    (∀ (users : List SimpleSrv.User) (email pw : String)
       (resp : List (String × String)),
       SimpleSrv.login users email pw = some resp →
       "password" ∉ resp.map Prod.fst ∧ "password_hash" ∉ resp.map Prod.fst)
  ∧ (∀ (users : List SimpleSrv.User) (r : SimpleSrv.RegisterReq)
       (resp : List (String × String)) (users' : List SimpleSrv.User),
       SimpleSrv.register users r = (.created resp, users') →
       "password" ∉ resp.map Prod.fst ∧ "password_hash" ∉ resp.map Prod.fst)
  ∧ (∀ (bcompare : String → String → Bool) (users : List RelSrv.User)
       (email pw : String) (resp : List (String × String)),
       RelSrv.login bcompare users email pw = some resp →
       "password" ∉ resp.map Prod.fst ∧ "password_hash" ∉ resp.map Prod.fst)
  ∧ (∀ (valOk : Bool) (bhash : String → String) (users : List RelSrv.User)
       (un em pw fn ln ph : String) (resp : List (String × String))
       (users' : List RelSrv.User),
       RelSrv.register valOk bhash users un em pw fn ln ph
           = (.created resp, users') →
       "password" ∉ resp.map Prod.fst
       ∧ "password_hash" ∉ resp.map Prod.fst) := by
  refine ⟨?_, ?_, ?_, ?_⟩
  · intro users email pw resp h
    unfold SimpleSrv.login at h
    split at h
    · simp at h
    · cases hf : users.find? fun u => u.email == email && u.password == pw with
      | none => rw [hf] at h; simp at h
      | some u =>
        rw [hf] at h
        simp only [Option.map_some', Option.some.injEq] at h
        subst h
        rw [removeKey_password_keysS]
        exact ⟨by decide, by decide⟩
  · intro users r resp users' h
    unfold SimpleSrv.register at h
    split at h
    · cases h
    · split at h
      · cases h
      · simp only [] at h
        injection h with h1 h2
        injection h1 with hr
        subst hr
        rw [removeKey_password_keysS]
        exact ⟨by decide, by decide⟩
  · intro bcompare users email pw resp h
    unfold RelSrv.login at h
    split at h
    · simp at h
    · split at h
      · simp only [Option.some.injEq] at h
        subst h
        rw [removeKey_hash_keysR]
        exact ⟨by decide, by decide⟩
      · simp at h
  · intro valOk bhash users un em pw fn ln ph resp users' h
    unfold RelSrv.register at h
    split at h
    · cases h
    · split at h
      · cases h
      · simp only [] at h
        injection h with h1 h2
        injection h1 with hr
        subst hr
        rw [removeKey_hash_keysR]
        exact ⟨by decide, by decide⟩

/-- Witness for C10: the concrete successful logins of both variants
return `mariaRespS` / `mariaRespR`, which carry no `password` and no
`password_hash` key. -/
theorem C10_credential_stripping_witness :
    ("password" ∉ mariaRespS.map Prod.fst
      ∧ "password_hash" ∉ mariaRespS.map Prod.fst)
    ∧ ("password" ∉ mariaRespR.map Prod.fst
      ∧ "password_hash" ∉ mariaRespR.map Prod.fst) :=
  ⟨C10_credential_stripping.1 demoUsersS "maria@example.com" "secret123"
      mariaRespS (by decide),
   C10_credential_stripping.2.2.1 (fun _ _ => true) demoUsersR
      "maria@example.com" "whatever" mariaRespR (by decide)⟩

end Catering
